import Mathlib

/-!
# Admission-review handler of the mutating webhook

A shallow embedding of `HandleMutate` from `src/main.go` and the properties of
its request lifecycle: decode the admission review, parse the embedded pod,
add the marker label, build the one-element JSON patch and write the response.

Modelling conventions.

* A Go `map[string]string` is a `Finmap`: keys are unique and there is no
  order.  A nil map is `none`, a non-nil map (possibly empty) is `some m`.
  Reading a nil map is allowed in Go, assigning into it panics.
* A Go pointer to a struct is an `Option`: `nil` is `none`.
* `[]byte` is `List UInt8`.
* The two library decoders (`universalDeserializer.Decode`, `json.Unmarshal`)
  and the file write are not part of the source; they are fields of `Env`, and
  every general theorem quantifies over all of them.  Each returns what the
  handler observes: the error flag and the state of the destination variable
  after the call (a failed decode may leave it partly filled).
* `json.Marshal` is applied by the source only to `[]patchOperation` whose
  value is a `map[string]string` and to an `AdmissionReview`; both are plain
  data for which `encoding/json` returns no error, and the text it produces
  determines the value.  The serialised bytes are therefore represented by the
  value they encode.
* A run-time panic ends the handler; it is recorded in `Outcome.panic`
  together with the state of the response writer reached so far.
-/

namespace MutatingWebhook

/-- Byte sequences (`[]byte`). -/
abbrev Bytes := List UInt8

/-- A non-nil `map[string]string`. -/
abbrev Labels := Finmap (fun _ : String => String)

/-- The constant `http.StatusBadRequest`. -/
def StatusBadRequest : Nat := 400

/-- The constant `http.StatusOK`, the status of a response whose header was never set. -/
def StatusOK : Nat := 200

/-- The `schema.GroupVersionKind` printed by the handler. -/
structure GroupVersionKind where
  Group : String
  Version : String
  Kind : String
  deriving DecidableEq

/-- The `runtime.RawExtension` holding the serialised object under review. -/
structure RawExtension where
  Raw : Bytes
  deriving DecidableEq

/-- The fields of `v1beta1.AdmissionRequest` that `HandleMutate` reads. -/
structure AdmissionRequest where
  UID : String
  Kind : GroupVersionKind
  Name : String
  Operation : String
  Object : RawExtension
  deriving DecidableEq

/-- The dynamic content of `patchOperation.Value` (`interface{}`): either the nil
interface or a label map, the only kind of value the source stores there. -/
inductive PatchValue where
  | null : PatchValue
  | labels : Labels → PatchValue
  deriving DecidableEq

/-- The struct `patchOperation` of the source (lines 40-44). -/
structure patchOperation where
  Op : String
  Path : String
  Value : PatchValue
  deriving DecidableEq

/-- The fields of `v1beta1.AdmissionResponse` that `HandleMutate` sets.  `Patch` is the
JSON text of a patch sequence, represented by that sequence; `none` is the nil slice. -/
structure AdmissionResponse where
  UID : String
  Allowed : Bool
  Patch : Option (List patchOperation)
  deriving DecidableEq

/-- The envelope `v1beta1.AdmissionReview`; both members are pointers. -/
structure AdmissionReview where
  Request : Option AdmissionRequest
  Response : Option AdmissionResponse
  deriving DecidableEq

/-- The part of `metav1.ObjectMeta` that the handler reads. -/
structure ObjectMeta where
  Labels : Option Labels
  deriving DecidableEq

/-- The part of `apiv1.Pod` that the handler reads. -/
structure Pod where
  ObjectMeta : ObjectMeta
  deriving DecidableEq

/-- What `universalDeserializer.Decode(body, nil, &admissionReviewReq)` leaves behind:
whether `err != nil`, and the value of `admissionReviewReq` after the call. -/
structure DecodeResult where
  err : Bool
  into : AdmissionReview
  deriving DecidableEq

/-- What `json.Unmarshal(raw, &pod)` leaves behind: whether `err != nil`, and the value
of `pod` after the call. -/
structure UnmarshalResult where
  err : Bool
  pod : Pod
  deriving DecidableEq

/-- The library calls of `HandleMutate` whose code is outside the source. -/
structure Env where
  /-- Whether `ioutil.WriteFile("/tmp/request", body, 0644)` returns an error. -/
  WriteFileErr : Bytes → Bool
  /-- The call `universalDeserializer.Decode(body, nil, &admissionReviewReq)`. -/
  Decode : Bytes → DecodeResult
  /-- The call `json.Unmarshal(raw, &pod)`. -/
  Unmarshal : Bytes → UnmarshalResult

/-- The observable state of the `http.ResponseWriter`: the status passed to
`WriteHeader` (if it was called) and the review whose JSON text was passed to `Write`
(if it was called). -/
structure ResponseWriter where
  status : Option Nat
  body : Option AdmissionReview
  deriving DecidableEq

/-- A writer on which nothing has been called yet, as the server hands it to a handler. -/
def ResponseWriter.fresh : ResponseWriter := ⟨none, none⟩

/-- The method `WriteHeader`: the first status code set is the one that counts. -/
def ResponseWriter.WriteHeader (w : ResponseWriter) (code : Nat) : ResponseWriter :=
  match w.status with
  | none => { w with status := some code }
  | some _ => w

/-- The method `Write`, called once by the handler with the serialised review. -/
def ResponseWriter.Write (w : ResponseWriter) (r : AdmissionReview) : ResponseWriter :=
  { w with body := some r }

/-- The status line the client is sent once a body is written: the code given to
`WriteHeader`, or 200 when it was never called. -/
def ResponseWriter.effectiveStatus (w : ResponseWriter) : Nat :=
  w.status.getD StatusOK

/-- The run-time panics `HandleMutate` can raise. -/
inductive Panic where
  /-- The explicit `panic(err.Error())` after a failed `ioutil.WriteFile` (line 123). -/
  | writeFile : Panic
  /-- Reading a field through the nil pointer `admissionReviewReq.Request` (line 141). -/
  | nilPointerDereference : Panic
  /-- Assigning an entry of the nil map `labels` (line 164). -/
  | nilMapAssignment : Panic
  deriving DecidableEq

/-- The result of one call of the handler: the writer as it stands when the handler
stops, and the panic that stopped it (`none` when it returned normally). -/
structure Outcome where
  w : ResponseWriter
  panic : Option Panic
  deriving DecidableEq

/-- The handler `HandleMutate` of `src/main.go` (lines 117-203), applied to the request
body read by `ioutil.ReadAll`. -/
def HandleMutate (env : Env) (body : Bytes) : Outcome :=
  let w := ResponseWriter.fresh
  -- lines 121-124: the debug copy of the body; a failed write panics
  if env.WriteFileErr body then ⟨w, some Panic.writeFile⟩ else
  -- lines 127-137: decode; both rejection branches set the status and fall through
  let d := env.Decode body
  let admissionReviewReq := d.into
  let w :=
    if d.err then w.WriteHeader StatusBadRequest
    else if admissionReviewReq.Request.isNone then w.WriteHeader StatusBadRequest
    else w
  -- lines 140-144: the fields of the request are read through the pointer
  match admissionReviewReq.Request with
  | none => ⟨w, some Panic.nilPointerDereference⟩
  | some req =>
    -- lines 146-153: the pod is parsed; the error is formatted and discarded
    let pod := (env.Unmarshal req.Object.Raw).pod
    -- lines 159-164: the label map of the pod receives the marker entry
    let patches : List patchOperation := []
    match pod.ObjectMeta.Labels with
    | none => ⟨w, some Panic.nilMapAssignment⟩
    | some labels =>
      let labels := labels.insert "mutating-webhook" "pod was mutated"
      -- lines 167-171
      let patches := patches ++ [⟨"add", "/metadata/labels", PatchValue.labels labels⟩]
      -- lines 174-178: the patch is serialised
      let patchBytes := some patches
      -- lines 183-188: the response echoes the UID and always allows
      let response : AdmissionResponse := ⟨req.UID, true, none⟩
      -- line 191
      let response := { response with Patch := patchBytes }
      let admissionReviewResponse : AdmissionReview := ⟨none, some response⟩
      -- lines 195-201: the review is serialised and written
      ⟨w.Write admissionReviewResponse, none⟩

/-! ## Observations on an outcome -/

/-- The admission response carried by the body the handler wrote, if any. -/
def Outcome.response (o : Outcome) : Option AdmissionResponse :=
  o.w.body.bind (fun r => r.Response)

/-- The value mappings of the operations of a patch sequence. -/
def patchValues : List patchOperation → List PatchValue
  | [] => []
  | p :: ps => p.Value :: patchValues ps

/-- The value mapping of the patch in the response the handler wrote: `some [v]` for a
response whose patch has one operation with value `v`. -/
def Outcome.patchValues (o : Outcome) : Option (List PatchValue) :=
  (o.response.bind (fun r => r.Patch)).map MutatingWebhook.patchValues

/-- The review the handler writes for a request with identifier `uid` whose pod has the
label mapping `L`. -/
def writtenReview (uid : String) (L : Labels) : AdmissionReview :=
  ⟨none, some ⟨uid, true,
    some [⟨"add", "/metadata/labels",
      PatchValue.labels (L.insert "mutating-webhook" "pod was mutated")⟩]⟩⟩

/-! ## Sample inputs

Request bodies and embedded objects as the API server sends them, and what the two
library decoders return on them. -/

/-- The conversion `[]byte(s)` for an ASCII literal `s`. -/
def toBytes (s : String) : Bytes :=
  s.toList.map (fun c => UInt8.ofNat c.toNat)

/-- The embedded pod `{"metadata":{"name":"nginx-pod","labels":{"app":"nginx"}}}`. -/
def nginxPodRaw : Bytes :=
  toBytes "\x7b\"metadata\":\x7b\"name\":\"nginx-pod\",\"labels\":\x7b\"app\":\"nginx\"\x7d\x7d\x7d"

/-- The embedded pod `{"metadata":{"name":"nginx-pod"}}`, which has no label mapping. -/
def noLabelsPodRaw : Bytes :=
  toBytes "\x7b\"metadata\":\x7b\"name\":\"nginx-pod\"\x7d\x7d"

/-- The embedded object `{"metadata":{"labels":{"app":"nginx"}},"spec":5}`: the labels
are well formed, the `spec` member has the wrong JSON type. -/
def badSpecPodRaw : Bytes :=
  toBytes "\x7b\"metadata\":\x7b\"labels\":\x7b\"app\":\"nginx\"\x7d\x7d,\"spec\":5\x7d"

/-- The embedded pod
`{"metadata":{"name":"nginx-pod","labels":{"app":"nginx","mutating-webhook":"pod was mutated"}}}`,
the pod `nginxPodRaw` after the patch of the webhook has been applied to it. -/
def mutatedPodRaw : Bytes :=
  toBytes "\x7b\"metadata\":\x7b\"name\":\"nginx-pod\",\"labels\":\x7b\"app\":\"nginx\",\"mutating-webhook\":\"pod was mutated\"\x7d\x7d\x7d"

/-- The review `{"request":{"uid":"abc-123","kind":{"group":"","version":"v1","kind":"Pod"},
"name":"nginx-pod","operation":"CREATE","object":P}}` with `P` the text of `nginxPodRaw`. -/
def nginxBody : Bytes :=
  toBytes "\x7b\"request\":\x7b\"uid\":\"abc-123\",\"kind\":\x7b\"group\":\"\",\"version\":\"v1\",\"kind\":\"Pod\"\x7d,\"name\":\"nginx-pod\",\"operation\":\"CREATE\",\"object\":"
    ++ nginxPodRaw ++ toBytes "\x7d\x7d"

/-- The same review as `nginxBody` with the pod `noLabelsPodRaw` and the UID `abc-124`. -/
def noLabelsBody : Bytes :=
  toBytes "\x7b\"request\":\x7b\"uid\":\"abc-124\",\"kind\":\x7b\"group\":\"\",\"version\":\"v1\",\"kind\":\"Pod\"\x7d,\"name\":\"nginx-pod\",\"operation\":\"CREATE\",\"object\":"
    ++ noLabelsPodRaw ++ toBytes "\x7d\x7d"

/-- The same review as `nginxBody` with the object `badSpecPodRaw` and the UID `abc-125`. -/
def badSpecBody : Bytes :=
  toBytes "\x7b\"request\":\x7b\"uid\":\"abc-125\",\"kind\":\x7b\"group\":\"\",\"version\":\"v1\",\"kind\":\"Pod\"\x7d,\"name\":\"nginx-pod\",\"operation\":\"CREATE\",\"object\":"
    ++ badSpecPodRaw ++ toBytes "\x7d\x7d"

/-- The same review as `nginxBody` with the pod `mutatedPodRaw` and the UID `abc-128`. -/
def mutatedBody : Bytes :=
  toBytes "\x7b\"request\":\x7b\"uid\":\"abc-128\",\"kind\":\x7b\"group\":\"\",\"version\":\"v1\",\"kind\":\"Pod\"\x7d,\"name\":\"nginx-pod\",\"operation\":\"CREATE\",\"object\":"
    ++ mutatedPodRaw ++ toBytes "\x7d\x7d"

/-- The review `{"request":{"uid":"abc-126","kind":{"group":"","version":"v1","kind":"Pod"},
"name":"nginx-pod","operation":"DELETE"}}`: a deletion is reviewed without an `object`
member, so the raw object of the decoded request is empty. -/
def deleteBody : Bytes :=
  toBytes "\x7b\"request\":\x7b\"uid\":\"abc-126\",\"kind\":\x7b\"group\":\"\",\"version\":\"v1\",\"kind\":\"Pod\"\x7d,\"name\":\"nginx-pod\",\"operation\":\"DELETE\"\x7d\x7d"

/-- The body `{"request":`, a JSON text cut off after the first member name. -/
def truncatedBody : Bytes :=
  toBytes "\x7b\"request\":"

/-- The body `{}`, a well-formed envelope without a `request` member. -/
def emptyObjectBody : Bytes :=
  toBytes "\x7b\x7d"

/-- The body `{"request":{"uid":"abc-127","object":P,"dryRun":5}}` with `P` the text of
`nginxPodRaw`: the members `uid` and `object` are well formed, the member `dryRun`, a
boolean, has the wrong JSON type. -/
def partialBody : Bytes :=
  toBytes "\x7b\"request\":\x7b\"uid\":\"abc-127\",\"object\":"
    ++ nginxPodRaw ++ toBytes ",\"dryRun\":5\x7d\x7d"

/-- The kind `v1/Pod`. -/
def podKind : GroupVersionKind := ⟨"", "v1", "Pod"⟩

/-- The request a `CREATE` review of the pod `nginx-pod` decodes to. -/
def createRequest (uid : String) (raw : Bytes) : AdmissionRequest :=
  ⟨uid, podKind, "nginx-pod", "CREATE", ⟨raw⟩⟩

/-- The label mapping `{"app":"nginx"}`. -/
def nginxLabels : Labels := Finmap.singleton "app" "nginx"

/-- The label mapping `{"app":"nginx","mutating-webhook":"pod was mutated"}`. -/
def mutatedLabels : Labels :=
  Finmap.insert "app" "nginx" (Finmap.singleton "mutating-webhook" "pod was mutated")

/-- The result of `universalDeserializer.Decode` on the sample bodies.  A body that is not
JSON is rejected with the destination untouched; a type error inside the envelope is
reported after the members before it have been stored. -/
def sampleDecode (body : Bytes) : DecodeResult :=
  if body = nginxBody then ⟨false, ⟨some (createRequest "abc-123" nginxPodRaw), none⟩⟩
  else if body = noLabelsBody then ⟨false, ⟨some (createRequest "abc-124" noLabelsPodRaw), none⟩⟩
  else if body = badSpecBody then ⟨false, ⟨some (createRequest "abc-125" badSpecPodRaw), none⟩⟩
  else if body = mutatedBody then ⟨false, ⟨some (createRequest "abc-128" mutatedPodRaw), none⟩⟩
  else if body = deleteBody then ⟨false, ⟨some ⟨"abc-126", podKind, "nginx-pod", "DELETE", ⟨[]⟩⟩, none⟩⟩
  else if body = emptyObjectBody then ⟨false, ⟨none, none⟩⟩
  else if body = partialBody then
    ⟨true, ⟨some ⟨"abc-127", ⟨"", "", ""⟩, "", "", ⟨nginxPodRaw⟩⟩, none⟩⟩
  else ⟨true, ⟨none, none⟩⟩

/-- The result of `json.Unmarshal` into a pod on the sample objects.  An empty input is
rejected with the pod untouched; a type error in a later member is reported after the
metadata has been stored. -/
def sampleUnmarshal (raw : Bytes) : UnmarshalResult :=
  if raw = nginxPodRaw then ⟨false, ⟨⟨some nginxLabels⟩⟩⟩
  else if raw = mutatedPodRaw then ⟨false, ⟨⟨some mutatedLabels⟩⟩⟩
  else if raw = noLabelsPodRaw then ⟨false, ⟨⟨none⟩⟩⟩
  else if raw = badSpecPodRaw then ⟨true, ⟨⟨some nginxLabels⟩⟩⟩
  else ⟨true, ⟨⟨none⟩⟩⟩

/-- The library calls on the sample inputs, with a writable `/tmp`. -/
def sampleEnv : Env := ⟨fun _ => false, sampleDecode, sampleUnmarshal⟩

end MutatingWebhook

set_option maxRecDepth 100000

namespace MutatingWebhook

/-! ## The paths through the handler -/

/-- When the debug file is written, the request pointer is set and the pod has a label
map, the handler returns normally after writing `writtenReview`. -/
theorem HandleMutate_of_labels (env : Env) (body : Bytes) (req : AdmissionRequest)
    (L : Labels) (hw : env.WriteFileErr body = false)
    (hreq : (env.Decode body).into.Request = some req)
    (hL : (env.Unmarshal req.Object.Raw).pod.ObjectMeta.Labels = some L) :
    HandleMutate env body =
      ⟨⟨if (env.Decode body).err then some StatusBadRequest else none,
        some (writtenReview req.UID L)⟩, none⟩ := by
  unfold HandleMutate
  simp only [hw, hreq, hL, Bool.false_eq_true, if_false, Option.isNone_some]
  cases (env.Decode body).err <;>
    simp [ResponseWriter.Write, ResponseWriter.WriteHeader, ResponseWriter.fresh, writtenReview]

/-- When the request pointer is nil the handler panics at the first read through it. -/
theorem HandleMutate_of_nil_request (env : Env) (body : Bytes)
    (hw : env.WriteFileErr body = false)
    (hreq : (env.Decode body).into.Request = none) :
    HandleMutate env body = ⟨⟨some StatusBadRequest, none⟩, some Panic.nilPointerDereference⟩ := by
  unfold HandleMutate
  simp only [hw, hreq, Bool.false_eq_true, if_false]
  cases (env.Decode body).err <;>
    simp [ResponseWriter.WriteHeader, ResponseWriter.fresh]

/-- When the pod has no label map the handler panics at the assignment of the marker. -/
theorem HandleMutate_of_nil_labels (env : Env) (body : Bytes) (req : AdmissionRequest)
    (hw : env.WriteFileErr body = false)
    (hreq : (env.Decode body).into.Request = some req)
    (hL : (env.Unmarshal req.Object.Raw).pod.ObjectMeta.Labels = none) :
    HandleMutate env body =
      ⟨⟨if (env.Decode body).err then some StatusBadRequest else none, none⟩,
        some Panic.nilMapAssignment⟩ := by
  unfold HandleMutate
  simp only [hw, hreq, hL, Bool.false_eq_true, if_false, Option.isNone_some]
  cases (env.Decode body).err <;>
    simp [ResponseWriter.WriteHeader, ResponseWriter.fresh]

/-- A body is written only on the path of `HandleMutate_of_labels`. -/
theorem HandleMutate_body_inv (env : Env) (body : Bytes) (rv : AdmissionReview)
    (h : (HandleMutate env body).w.body = some rv) :
    ∃ req L, env.WriteFileErr body = false ∧
      (env.Decode body).into.Request = some req ∧
      (env.Unmarshal req.Object.Raw).pod.ObjectMeta.Labels = some L ∧
      rv = writtenReview req.UID L := by
  cases hw : env.WriteFileErr body with
  | true => simp [HandleMutate, hw, ResponseWriter.fresh] at h
  | false =>
    cases hreq : (env.Decode body).into.Request with
    | none =>
      rw [HandleMutate_of_nil_request env body hw hreq] at h
      simp at h
    | some req =>
      cases hL : (env.Unmarshal req.Object.Raw).pod.ObjectMeta.Labels with
      | none =>
        rw [HandleMutate_of_nil_labels env body req hw hreq hL] at h
        simp at h
      | some L =>
        rw [HandleMutate_of_labels env body req L hw hreq hL] at h
        refine ⟨req, L, rfl, rfl, hL, ?_⟩
        simpa using h.symm

/-- The sample labels with the marker entry set are the mapping `mutatedLabels`, in whatever
order the entries were added. -/
theorem insert_marker_nginxLabels :
    Finmap.insert "mutating-webhook" "pod was mutated" nginxLabels = mutatedLabels := by
  decide

/-! ## The successful path -/

/-- C1: for a body that decodes without error to a review whose request is present and
whose pod has a non-nil label mapping `L`, the handler returns normally with status 200 and
a response that allows and whose patch carries one value mapping `M = L ∪ {marker}`: the
marker key maps to the marker value, every other key maps as in `L`, and the keys of `M`
are the marker key and the keys of `L`.  (The debug copy of the body is assumed written.) -/
theorem C1_patch_value_is_labels_with_marker (env : Env) (body : Bytes)
    (req : AdmissionRequest) (L : Labels)
    (hw : env.WriteFileErr body = false)
    (hd : (env.Decode body).err = false)
    (hreq : (env.Decode body).into.Request = some req)
    (hL : (env.Unmarshal req.Object.Raw).pod.ObjectMeta.Labels = some L) :
    (HandleMutate env body).panic = none ∧
    (HandleMutate env body).w.effectiveStatus = StatusOK ∧
    (HandleMutate env body).response.map (fun r => r.Allowed) = some true ∧
    ∃ M : Labels,
      (HandleMutate env body).patchValues = some [PatchValue.labels M] ∧
      M = L.insert "mutating-webhook" "pod was mutated" ∧
      M.lookup "mutating-webhook" = some "pod was mutated" ∧
      (∀ k, k ≠ "mutating-webhook" → M.lookup k = L.lookup k) ∧
      (∀ k, k ∈ M ↔ k = "mutating-webhook" ∨ k ∈ L) := by
  rw [HandleMutate_of_labels env body req L hw hreq hL, hd]
  refine ⟨rfl, rfl, rfl, L.insert "mutating-webhook" "pod was mutated", rfl, rfl, ?_, ?_, ?_⟩
  · exact Finmap.lookup_insert L
  · intro k hk
    exact Finmap.lookup_insert_of_ne L hk
  · intro k
    exact Finmap.mem_insert

/-- C1 at the sample review of the pod `nginx-pod` with labels `{"app":"nginx"}`. -/
theorem C1_patch_value_is_labels_with_marker_witness :
    (sampleEnv.Decode nginxBody).err = false ∧
    (sampleEnv.Decode nginxBody).into.Request = some (createRequest "abc-123" nginxPodRaw) ∧
    (HandleMutate sampleEnv nginxBody).panic = none ∧
    (HandleMutate sampleEnv nginxBody).response.map (fun r => r.Allowed) = some true ∧
    ∃ M : Labels,
      (HandleMutate sampleEnv nginxBody).patchValues = some [PatchValue.labels M] ∧
      M.lookup "mutating-webhook" = some "pod was mutated" ∧
      (∀ k, k ≠ "mutating-webhook" → M.lookup k = nginxLabels.lookup k) := by
  have h := C1_patch_value_is_labels_with_marker sampleEnv nginxBody
    (createRequest "abc-123" nginxPodRaw) nginxLabels rfl (by decide) (by decide) (by decide)
  obtain ⟨h1, -, h3, M, h4, -, h6, h7, -⟩ := h
  exact ⟨by decide, by decide, h1, h3, M, h4, h6, h7⟩

/-- C2: whenever the handler writes a response, the request pointer of the decoded review
is set and the UID of the response is the UID of that request, character for character. -/
theorem C2_response_uid_is_request_uid (env : Env) (body : Bytes)
    (resp : AdmissionResponse)
    (h : (HandleMutate env body).response = some resp) :
    ∃ req, (env.Decode body).into.Request = some req ∧ resp.UID = req.UID := by
  unfold Outcome.response at h
  cases hb : (HandleMutate env body).w.body with
  | none => simp [hb] at h
  | some rv =>
    obtain ⟨req, L, -, hreq, -, hrv⟩ := HandleMutate_body_inv env body rv hb
    refine ⟨req, hreq, ?_⟩
    rw [hb, hrv] at h
    simp only [writtenReview, Option.some_bind, Option.some.injEq] at h
    rw [← h]

/-- C2 at the sample review with UID `abc-123`. -/
theorem C2_response_uid_is_request_uid_witness :
    ∃ resp, (HandleMutate sampleEnv nginxBody).response = some resp ∧
      resp.UID = "abc-123" := by
  have hr : (HandleMutate sampleEnv nginxBody).response =
      some ⟨"abc-123", true, some [⟨"add", "/metadata/labels",
        PatchValue.labels (Finmap.insert "mutating-webhook" "pod was mutated" nginxLabels)⟩]⟩ := by
    decide
  obtain ⟨req, hreq, huid⟩ := C2_response_uid_is_request_uid sampleEnv nginxBody _ hr
  have hq : (sampleEnv.Decode nginxBody).into.Request =
      some (createRequest "abc-123" nginxPodRaw) := by decide
  rw [hq] at hreq
  refine ⟨_, hr, ?_⟩
  rw [huid, ← Option.some.inj hreq]
  rfl

/-- C6: every response the handler writes carries a patch of exactly one operation, with
op `add`, path `/metadata/labels` and as value the label mapping of the pod with the marker
entry set; and for the request with UID `abc-123`, operation `CREATE`, name `nginx-pod`
and labels `{"app":"nginx"}` the handler returns normally, with status 200, after writing
the response with UID `abc-123`, `Allowed = true` and the patch
`[{op:"add", path:"/metadata/labels", value:{"app":"nginx","mutating-webhook":"pod was mutated"}}]`. -/
theorem C6_patch_is_one_add_operation (env : Env) (body : Bytes) :
    (∀ resp, (HandleMutate env body).response = some resp →
      ∃ req L, (env.Decode body).into.Request = some req ∧
        (env.Unmarshal req.Object.Raw).pod.ObjectMeta.Labels = some L ∧
        resp.Patch = some [⟨"add", "/metadata/labels",
          PatchValue.labels (L.insert "mutating-webhook" "pod was mutated")⟩]) ∧
    (∀ req, env.WriteFileErr body = false →
      (env.Decode body).err = false →
      (env.Decode body).into.Request = some req →
      req.UID = "abc-123" → req.Operation = "CREATE" → req.Name = "nginx-pod" →
      (env.Unmarshal req.Object.Raw).pod.ObjectMeta.Labels =
        some (Finmap.singleton "app" "nginx" : Labels) →
      HandleMutate env body =
        ⟨⟨none, some ⟨none, some ⟨"abc-123", true, some [⟨"add", "/metadata/labels",
          PatchValue.labels (Finmap.insert "app" "nginx"
            (Finmap.singleton "mutating-webhook" "pod was mutated" : Labels))⟩]⟩⟩⟩, none⟩) := by
  constructor
  · intro resp h
    unfold Outcome.response at h
    cases hb : (HandleMutate env body).w.body with
    | none => simp [hb] at h
    | some rv =>
      obtain ⟨req, L, -, hreq, hL, hrv⟩ := HandleMutate_body_inv env body rv hb
      refine ⟨req, L, hreq, hL, ?_⟩
      rw [hb, hrv] at h
      simp only [writtenReview, Option.some_bind, Option.some.injEq] at h
      rw [← h]
  · intro req hw hd hreq huid _ _ hL
    rw [HandleMutate_of_labels env body req _ hw hreq hL, hd, huid]
    have hm : Finmap.insert "mutating-webhook" "pod was mutated"
        (Finmap.singleton "app" "nginx" : Labels) =
        Finmap.insert "app" "nginx" (Finmap.singleton "mutating-webhook" "pod was mutated") := by
      decide
    simp [writtenReview, hm]

/-- C6 at the sample review: the response of the scenario is written, and its patch is the
one operation the general statement gives. -/
theorem C6_patch_is_one_add_operation_witness :
    HandleMutate sampleEnv nginxBody =
      ⟨⟨none, some ⟨none, some ⟨"abc-123", true, some [⟨"add", "/metadata/labels",
        PatchValue.labels mutatedLabels⟩]⟩⟩⟩, none⟩ ∧
    ∃ resp L, (HandleMutate sampleEnv nginxBody).response = some resp ∧
      resp.Patch = some [⟨"add", "/metadata/labels",
        PatchValue.labels (Finmap.insert "mutating-webhook" "pod was mutated" L)⟩] := by
  have h := C6_patch_is_one_add_operation sampleEnv nginxBody
  have h2 := h.2 (createRequest "abc-123" nginxPodRaw) rfl (by decide) (by decide)
    rfl rfl rfl (by decide)
  refine ⟨h2, ?_⟩
  have hr : (HandleMutate sampleEnv nginxBody).response =
      some ⟨"abc-123", true, some [⟨"add", "/metadata/labels",
        PatchValue.labels mutatedLabels⟩]⟩ := by
    rw [h2]; rfl
  obtain ⟨_, L, _, _, hp⟩ := h.1 _ hr
  exact ⟨_, L, hr, hp⟩

/-- C7: if `M` is the value mapping of the patch produced for a pod with labels `L`, then a
request whose pod has the labels `M` gets a patch whose value mapping is `M` again, and `M`
maps the marker key to the marker value. -/
theorem C7_mutation_is_idempotent (env : Env) (body₁ body₂ : Bytes)
    (req₁ req₂ : AdmissionRequest) (L M : Labels)
    (hreq₁ : (env.Decode body₁).into.Request = some req₁)
    (hL : (env.Unmarshal req₁.Object.Raw).pod.ObjectMeta.Labels = some L)
    (hM : (HandleMutate env body₁).patchValues = some [PatchValue.labels M])
    (hw₂ : env.WriteFileErr body₂ = false)
    (hreq₂ : (env.Decode body₂).into.Request = some req₂)
    (hL₂ : (env.Unmarshal req₂.Object.Raw).pod.ObjectMeta.Labels = some M) :
    (HandleMutate env body₂).patchValues = some [PatchValue.labels M] ∧
    M.lookup "mutating-webhook" = some "pod was mutated" := by
  have hw₁ : env.WriteFileErr body₁ = false := by
    cases hw : env.WriteFileErr body₁ with
    | false => rfl
    | true =>
      simp [HandleMutate, hw, Outcome.patchValues, Outcome.response, ResponseWriter.fresh] at hM
  rw [HandleMutate_of_labels env body₁ req₁ L hw₁ hreq₁ hL] at hM
  simp only [Outcome.patchValues, Outcome.response, writtenReview, Option.some_bind,
    Option.map_some', patchValues, Option.some.injEq, List.cons.injEq, and_true,
    PatchValue.labels.injEq] at hM
  subst hM
  rw [HandleMutate_of_labels env body₂ req₂ _ hw₂ hreq₂ hL₂]
  refine ⟨?_, Finmap.lookup_insert L⟩
  simp [Outcome.patchValues, Outcome.response, writtenReview, patchValues,
    Finmap.insert_insert]

/-- C7 at the sample reviews: the pod `nginx-pod` and the same pod after the patch. -/
theorem C7_mutation_is_idempotent_witness :
    (HandleMutate sampleEnv nginxBody).patchValues = some [PatchValue.labels mutatedLabels] ∧
    (HandleMutate sampleEnv mutatedBody).patchValues = some [PatchValue.labels mutatedLabels] ∧
    mutatedLabels.lookup "mutating-webhook" = some "pod was mutated" := by
  have h₁ : (HandleMutate sampleEnv nginxBody).patchValues =
      some [PatchValue.labels mutatedLabels] := by
    rw [← insert_marker_nginxLabels]
    decide
  have h := C7_mutation_is_idempotent sampleEnv nginxBody mutatedBody
    (createRequest "abc-123" nginxPodRaw) (createRequest "abc-128" mutatedPodRaw)
    nginxLabels mutatedLabels (by decide) (by decide) h₁ rfl (by decide) (by decide)
  exact ⟨h₁, h.1, h.2⟩

/-- C8: every response the handler writes has `Allowed = true`, whatever the decoders
reported; in particular a response that carries a patch allows. -/
theorem C8_written_response_allows (env : Env) (body : Bytes) (resp : AdmissionResponse)
    (h : (HandleMutate env body).response = some resp) :
    resp.Allowed = true ∧ (resp.Patch.isSome = true → resp.Allowed = true) := by
  unfold Outcome.response at h
  cases hb : (HandleMutate env body).w.body with
  | none => simp [hb] at h
  | some rv =>
    obtain ⟨req, L, -, -, -, hrv⟩ := HandleMutate_body_inv env body rv hb
    rw [hb, hrv] at h
    simp only [writtenReview, Option.some_bind, Option.some.injEq] at h
    rw [← h]
    exact ⟨rfl, fun _ => rfl⟩

/-- C8 on an error path: the pod of the sample review `badSpecBody` is rejected by
`json.Unmarshal`, a response is written all the same, and it allows. -/
theorem C8_written_response_allows_witness :
    (sampleEnv.Unmarshal badSpecPodRaw).err = true ∧
    ∃ resp, (HandleMutate sampleEnv badSpecBody).response = some resp ∧
      resp.Allowed = true := by
  have hr : (HandleMutate sampleEnv badSpecBody).response =
      some ⟨"abc-125", true, some [⟨"add", "/metadata/labels",
        PatchValue.labels mutatedLabels⟩]⟩ := by
    rw [← insert_marker_nginxLabels]
    decide
  exact ⟨by decide, _, hr, (C8_written_response_allows sampleEnv badSpecBody _ hr).1⟩

/-! ## The rejection branches and the nil label map

Both rejection branches of the handler (lines 131-137) set the status and fall through to
the code that reads the request; the assignment of the marker (line 164) is made without
looking whether the pod has a label map. -/

/-- C3: on the truncated body `{"request":` the deserializer reports an error and leaves
the review untouched; the handler sets status 400 and then panics reading through the nil
request pointer, without writing a body. -/
theorem C3_undecodable_body_panics :
    (sampleEnv.Decode truncatedBody).err = true ∧
    (sampleEnv.Decode truncatedBody).into.Request = none ∧
    HandleMutate sampleEnv truncatedBody =
      ⟨⟨some StatusBadRequest, none⟩, some Panic.nilPointerDereference⟩ := by
  decide

/-- C4: on a review that decodes without error and whose pod parses without error but has
no label mapping, the handler panics at the assignment of the marker: no patch is produced
and no body is written. -/
theorem C4_nil_label_map_panics :
    (sampleEnv.Decode noLabelsBody).err = false ∧
    (sampleEnv.Decode noLabelsBody).into.Request =
      some (createRequest "abc-124" noLabelsPodRaw) ∧
    sampleEnv.Unmarshal noLabelsPodRaw = ⟨false, ⟨⟨none⟩⟩⟩ ∧
    HandleMutate sampleEnv noLabelsBody = ⟨⟨none, none⟩, some Panic.nilMapAssignment⟩ ∧
    (HandleMutate sampleEnv noLabelsBody).patchValues = none := by
  decide

/-- C5: on the body `{}` the envelope decodes without error and the request pointer is
nil; the handler sets status 400 and then goes on to read the fields of the request, which
panics. -/
theorem C5_nil_request_panics :
    (sampleEnv.Decode emptyObjectBody).err = false ∧
    (sampleEnv.Decode emptyObjectBody).into.Request = none ∧
    HandleMutate sampleEnv emptyObjectBody =
      ⟨⟨some StatusBadRequest, none⟩, some Panic.nilPointerDereference⟩ := by
  decide

/-- C9: on a review that decodes without error and whose embedded object is rejected by
`json.Unmarshal` (the empty object of a deletion), the pod stays zero-valued, its label map
is nil, and the handler panics at the assignment of the marker without writing a body. -/
theorem C9_unparsable_pod_panics :
    (sampleEnv.Decode deleteBody).err = false ∧
    (sampleEnv.Decode deleteBody).into.Request =
      some ⟨"abc-126", podKind, "nginx-pod", "DELETE", ⟨[]⟩⟩ ∧
    sampleEnv.Unmarshal [] = ⟨true, ⟨⟨none⟩⟩⟩ ∧
    HandleMutate sampleEnv deleteBody = ⟨⟨none, none⟩, some Panic.nilMapAssignment⟩ ∧
    (HandleMutate sampleEnv deleteBody).w.body = none := by
  decide

/-- C10: on a body for which the deserializer reports an error after it has stored the
request, the handler sets status 400 and then writes a response built from that request:
its UID, `Allowed = true` and a patch. -/
theorem C10_partly_decoded_request_is_answered :
    (sampleEnv.Decode partialBody).err = true ∧
    HandleMutate sampleEnv partialBody =
      ⟨⟨some StatusBadRequest, some ⟨none, some ⟨"abc-127", true,
        some [⟨"add", "/metadata/labels",
          PatchValue.labels (Finmap.insert "mutating-webhook" "pod was mutated" nginxLabels)⟩]⟩⟩⟩,
        none⟩ := by
  decide

end MutatingWebhook
